import Mathlib

/-!
Verification development for the green-space analysis app (src/app.py).

The app delegates all image processing to an external geospatial engine;
the shallow embedding below models an image as a list of pixels and each
delegated per-pixel operation by its documented pixel-level semantics,
while every piece of arithmetic and control flow that lives in app.py
(cloud-mask predicate, band scaling, vegetation statistics, percentage
change, image selection, session-state bookkeeping) is translated
directly from the Python source.
-/

/-- A Sentinel-2 pixel as consumed by the app: the red band B4, the
near-infrared band B8, and the scene-classification band SCL used by the
cloud mask.  Band values are modelled as exact rationals. -/
structure S2Pixel where
  B4 : ℚ
  B8 : ℚ
  SCL : ℚ
deriving DecidableEq, Repr

/-- Pixel-level embedding of `mask_s2_clouds` (app.py lines 31-34): the
pixel is kept only when its SCL value is none of 3, 8, 9, and every band
of a kept pixel is divided by 10000. -/
def mask_s2_clouds (p : S2Pixel) : Option S2Pixel :=
  if p.SCL ≠ 3 ∧ p.SCL ≠ 8 ∧ p.SCL ≠ 9 then
    some ⟨p.B4 / 10000, p.B8 / 10000, p.SCL / 10000⟩
  else
    none

/-- Modelled from the spec: the external engine's normalized-difference
operation, `(NIR-Red)/(NIR+Red)` per the glossary; the engine masks the
output pixel when the denominator is zero, hence the `Option`. -/
def normalizedDifference (a b : ℚ) : Option ℚ :=
  if a + b = 0 then none else some ((a - b) / (a + b))

/-- A pixel after `add_indices`: the original bands plus the NDVI band
(`none` when the engine masked the NDVI output). -/
structure NDVIPixel where
  base : S2Pixel
  NDVI : Option ℚ
deriving DecidableEq, Repr

/-- Pixel-level embedding of `add_indices` (app.py lines 36-38): attach
the normalized difference of B8 and B4 as the NDVI band. -/
def add_indices (p : S2Pixel) : NDVIPixel :=
  ⟨p, normalizedDifference p.B8 p.B4⟩

/-- Embedding of `add_indices(mask_s2_clouds(image))` (app.py line 145):
cloud-masked pixels are dropped, surviving pixels are scaled and get an
NDVI band. -/
def processedImage (img : List S2Pixel) : List NDVIPixel :=
  (img.filterMap mask_s2_clouds).map add_indices

/-- The values of the NDVI band of a processed image, as seen by the
region reducers: masked NDVI pixels contribute nothing. -/
def ndviBandValues (pimg : List NDVIPixel) : List ℚ :=
  pimg.filterMap NDVIPixel.NDVI

/-- Number of values in a list strictly greater than a threshold; this is
what `ndvi.gt(t)` followed by a sum reduction computes. -/
def countGt (l : List ℚ) (t : ℚ) : ℕ :=
  (l.filter (fun x => decide (t < x))).length

/-- The record returned by `calculate_vegetation_stats`
(app.py lines 247-252). -/
structure VegStats where
  dense_vegetation : ℚ
  moderate_vegetation : ℚ
  total_vegetation : ℚ
  area_km2 : ℚ
deriving DecidableEq, Repr

/-- The three `reduceRegion(...).getInfo()` dictionaries consumed by
`calculate_vegetation_stats`; `none` models a dictionary in which the
key NDVI is absent, `some v` a dictionary carrying value `v`. -/
structure ReduceResults where
  totalR : Option ℚ
  denseR : Option ℚ
  moderateR : Option ℚ
deriving DecidableEq, Repr

/-- Embedding of `calculate_vegetation_stats` (app.py lines 216-252)
after the three region reductions: `total_pixels` is the count result
defaulting to 1, `dense_veg` and `moderate_veg` default to 0, the three
percentages are computed by division by `total_pixels`, and
`area_km2 = total_pixels * 900 / 1000000`.  The result is `none` exactly
when Python would raise ZeroDivisionError, i.e. when `total_pixels = 0`. -/
def calculate_vegetation_stats (r : ReduceResults) : Option VegStats :=
  let total_pixels := r.totalR.getD 1
  let dense_veg := r.denseR.getD 0
  let moderate_veg := r.moderateR.getD 0
  if total_pixels = 0 then none
  else
    let dense_percent := dense_veg / total_pixels * 100
    let moderate_percent := moderate_veg / total_pixels * 100
    some ⟨dense_percent, moderate_percent, dense_percent + moderate_percent,
          total_pixels * 900 / 1000000⟩

/-- The reducer results the engine returns on the NDVI band of an image
whose unmasked NDVI values are `l`: the count reducer counts the
unmasked pixels (returning 0, with the key present, when there are
none), and the sum reducer over `ndvi.gt(t)` counts the values above the
threshold. -/
def reduceNDVI (l : List ℚ) : ReduceResults :=
  ⟨some l.length, some (countGt l 0.6), some (countGt l 0.3)⟩

/-- `calculate_vegetation_stats` on an image whose unmasked NDVI values
are `l`. -/
def vegStatsOf (l : List ℚ) : Option VegStats :=
  calculate_vegetation_stats (reduceNDVI l)

/-- The whole per-image analysis (app.py lines 145 and 256-257): mask
clouds, add the NDVI band, then compute vegetation statistics from the
NDVI band of the processed image. -/
def analysisStats (img : List S2Pixel) : Option VegStats :=
  vegStatsOf (ndviBandValues (processedImage img))

/-- Embedding of `veg_change` (app.py line 286): the difference of the
two total-vegetation percentages. -/
def veg_change (stats_2018 stats_2024 : VegStats) : ℚ :=
  stats_2024.total_vegetation - stats_2018.total_vegetation

/-- An item of the Sentinel-2 collection as the image-selection code sees
it, restricted to one pixel location: the pixel value and the collection
property CLOUDY_PIXEL_PERCENTAGE used for filtering and sorting. -/
structure S2SceneImage where
  value : ℚ
  cloudy : ℚ
deriving DecidableEq, Repr

/-- Insert an image into a list sorted by ascending cloudy-pixel
percentage. -/
def insertByCloudy (x : S2SceneImage) : List S2SceneImage → List S2SceneImage
  | [] => [x]
  | y :: ys => if x.cloudy ≤ y.cloudy then x :: y :: ys else y :: insertByCloudy x ys

/-- Sort a collection by ascending cloudy-pixel percentage, as
`.sort('CLOUDY_PIXEL_PERCENTAGE')` does. -/
def sortByCloudy : List S2SceneImage → List S2SceneImage
  | [] => []
  | x :: xs => insertByCloudy x (sortByCloudy xs)

/-- Embedding of the `recent_image` / `historical_image` selection
(app.py lines 121-134): filter the date-ranged collection to images with
cloudy-pixel percentage below 30, sort by that percentage, and take the
first image. -/
def recent_image (collection : List S2SceneImage) : Option S2SceneImage :=
  (sortByCloudy (collection.filter (fun i => decide (i.cloudy < 30)))).head?

/-- Median of a list of rationals: the average of the two middle elements
of the sorted list (for odd length both are the middle element). -/
def medianOf (l : List ℚ) : Option ℚ :=
  let s := l.mergeSort (fun a b => decide (a ≤ b))
  match s.get? ((s.length - 1) / 2), s.get? (s.length / 2) with
  | some a, some b => some ((a + b) / 2)
  | _, _ => none

/-- Modelled from the spec: "a single image formed by taking the
per-pixel median of many cloud-masked images over a date range"; at the
single pixel location being modelled, the composite value is the median
of the values of all images of the date-ranged collection that pass the
cloudiness filter. -/
def medianComposite (collection : List S2SceneImage) : Option ℚ :=
  medianOf ((collection.filter (fun i => decide (i.cloudy < 30))).map S2SceneImage.value)

/-- The geometry dictionary captured from the map drawing
(`drawing["geometry"]`): a GeoJSON type tag and the polygon coordinates,
a list of rings of (longitude, latitude) pairs. -/
structure DrawnGeometry where
  gtype : String
  coordinates : List (List (ℚ × ℚ))
deriving DecidableEq, Repr

/-- The Streamlit session state used by the app (app.py lines 53-57). -/
structure SessionState where
  saved_geometry : Option DrawnGeometry
  analysis_run : Bool
deriving DecidableEq, Repr

/-- The guard of the capture branch (app.py lines 77-78): a drawing is
saved when nothing is saved yet or when the string rendering of the
saved coordinates differs from that of the new ones; the string
rendering of coordinate lists is injective, so this is coordinate-list
inequality. -/
def coordsChanged (s : SessionState) (g : DrawnGeometry) : Bool :=
  match s.saved_geometry with
  | none => true
  | some g0 => decide (g0.coordinates ≠ g.coordinates)

/-- The user-interface events that touch the session state: a drawing
arriving from the map (lines 73-81), the Clear Drawing button
(lines 87-90), the Run AI Analysis button (lines 95-97), and any rerun
that does none of these. -/
inductive UIEvent where
  | capture (g : DrawnGeometry)
  | clear
  | runClick
  | other
deriving DecidableEq, Repr

/-- One script pass's effect on the session state (app.py lines 73-97):
a changed drawing is saved and resets `analysis_run`; Clear empties the
geometry and resets `analysis_run`; Run sets `analysis_run` when a
geometry is saved (the button exists only then); anything else leaves
the state alone. -/
def step (s : SessionState) : UIEvent → SessionState
  | .capture g => if coordsChanged s g then ⟨some g, false⟩ else s
  | .clear => ⟨none, false⟩
  | .runClick => if s.saved_geometry.isSome then ⟨s.saved_geometry, true⟩ else s
  | .other => s

/-- The session state after a sequence of events. -/
def applyEvents (s : SessionState) (es : List UIEvent) : SessionState :=
  es.foldl step s

/-- All states passed through while applying a sequence of events,
including the starting state. -/
def traceStates (s : SessionState) : List UIEvent → List SessionState
  | [] => [s]
  | e :: es => s :: traceStates (step s e) es

/-- The coordinate list later read back to build the Earth Engine
polygon (app.py lines 104-105): `saved_geometry["coordinates"]`. -/
def roiCoords (s : SessionState) : Option (List (List (ℚ × ℚ))) :=
  s.saved_geometry.map DrawnGeometry.coordinates

/-- Modelled from the spec: the vegetation percentage under the spec's
k-means convention, where each pixel carries a cluster label in
\x7b0,1,2\x7d and the pixels labelled 1 are the ones counted as
vegetation. -/
def specVegPercent (labels : List (Fin 3)) : ℚ :=
  100 * ((labels.filter (fun x => decide (x = 1))).length : ℚ) / labels.length

/-! ### Helper lemmas -/

lemma vegStatsOf_eq_of_ne_nil (l : List ℚ) (h : l ≠ []) :
    vegStatsOf l = some ⟨(countGt l 0.6 : ℚ) / l.length * 100,
                         (countGt l 0.3 : ℚ) / l.length * 100,
                         (countGt l 0.6 : ℚ) / l.length * 100 +
                           (countGt l 0.3 : ℚ) / l.length * 100,
                         (l.length : ℚ) * 900 / 1000000⟩ := by
  have h0 : (l.length : ℚ) ≠ 0 :=
    Nat.cast_ne_zero.mpr (fun hh => h (List.length_eq_zero.mp hh))
  simp [vegStatsOf, calculate_vegetation_stats, reduceNDVI, h0]

lemma vegStatsOf_nil : vegStatsOf [] = none := by
  simp [vegStatsOf, calculate_vegetation_stats, reduceNDVI]

/-! ### C1: vegetation-area arithmetic -/

/-- C1 (counterexample): on an image whose two unmasked pixels have NDVI
values 0.1 and 0.2, no pixel is classified as vegetation at either
threshold, yet `calculate_vegetation_stats` reports
`area_km2 = 9/5000 km²`, while (number of vegetation pixels * 900)/1e6
is 0; so the reported area is not the summed area of the vegetation
pixels divided by 1e6. -/
theorem c1_area_counterexample :
    (vegStatsOf [1/10, 2/10]).map VegStats.area_km2 = some (9/5000) ∧
    countGt [1/10, 2/10] 0.3 = 0 ∧
    countGt [1/10, 2/10] 0.6 = 0 ∧
    ((0 : ℚ) * 900 / 1000000 = 0) ∧
    (9/5000 : ℚ) ≠ 0 := by
  refine ⟨?_, ?_, ?_, by norm_num, by norm_num⟩ <;>
    norm_num [vegStatsOf, calculate_vegetation_stats, reduceNDVI, countGt]

/-- C1 (amended): for every analysed image, the reported `area_km2`
equals (number of pixels counted in the NDVI band — all unmasked pixels,
vegetation or not — times 900) divided by 1e6. -/
theorem c1_area_from_total_pixels (l : List ℚ) (s : VegStats)
    (h : vegStatsOf l = some s) :
    s.area_km2 = (l.length : ℚ) * 900 / 1000000 := by
  rcases eq_or_ne l [] with rfl | hl
  · rw [vegStatsOf_nil] at h
    exact absurd h (by simp)
  · rw [vegStatsOf_eq_of_ne_nil l hl] at h
    cases h
    rfl

/-- C1 witness: the amended statement at the concrete image of the
counterexample. -/
theorem c1_area_from_total_pixels_witness :
    (⟨0, 0, 0, 9/5000⟩ : VegStats).area_km2 =
      ((([1/10, 2/10] : List ℚ).length : ℚ)) * 900 / 1000000 :=
  c1_area_from_total_pixels [1/10, 2/10] ⟨0, 0, 0, 9/5000⟩
    (by norm_num [vegStatsOf, calculate_vegetation_stats, reduceNDVI, countGt])

/-! ### C2: percentage change between the two periods -/

/-- C2 (counterexample): with 2018 statistics of 50% total vegetation
(one of two pixels above 0.3) and 2024 statistics of 100% (both pixels
above 0.3), the figure computed by the code is the difference 50, while
(new - old)/old * 100 is 100; the Vegetation Change Summary does not
report the relative change times 100. -/
theorem c2_change_counterexample :
    vegStatsOf [4/10, 1/10] = some ⟨0, 50, 50, 9/5000⟩ ∧
    vegStatsOf [4/10, 4/10] = some ⟨0, 100, 100, 9/5000⟩ ∧
    veg_change ⟨0, 50, 50, 9/5000⟩ ⟨0, 100, 100, 9/5000⟩ = 50 ∧
    ((100 : ℚ) - 50) / 50 * 100 = 100 ∧
    (50 : ℚ) ≠ 100 := by
  refine ⟨?_, ?_, by norm_num [veg_change], by norm_num, by norm_num⟩ <;>
    norm_num [vegStatsOf, calculate_vegetation_stats, reduceNDVI, countGt]

/-- C2 (amended): the change figure shown in the Vegetation Change
Summary is the difference of the two total-vegetation percentages (new
minus old, in percentage points), not the relative change times 100. -/
theorem c2_change_is_difference (l18 l24 : List ℚ) (s18 s24 : VegStats)
    (h18 : vegStatsOf l18 = some s18) (h24 : vegStatsOf l24 = some s24) :
    veg_change s18 s24 =
      ((countGt l24 0.6 : ℚ) / l24.length * 100 +
        (countGt l24 0.3 : ℚ) / l24.length * 100) -
      ((countGt l18 0.6 : ℚ) / l18.length * 100 +
        (countGt l18 0.3 : ℚ) / l18.length * 100) := by
  rcases eq_or_ne l18 [] with rfl | h18n
  · rw [vegStatsOf_nil] at h18
    exact absurd h18 (by simp)
  rcases eq_or_ne l24 [] with rfl | h24n
  · rw [vegStatsOf_nil] at h24
    exact absurd h24 (by simp)
  rw [vegStatsOf_eq_of_ne_nil l18 h18n] at h18
  rw [vegStatsOf_eq_of_ne_nil l24 h24n] at h24
  cases h18
  cases h24
  rfl

/-- C2 witness: the amended statement at the two concrete images of the
counterexample. -/
theorem c2_change_is_difference_witness :
    veg_change ⟨0, 50, 50, 9/5000⟩ ⟨0, 100, 100, 9/5000⟩ =
      ((countGt [4/10, 4/10] 0.6 : ℚ) / ([4/10, 4/10] : List ℚ).length * 100 +
        (countGt [4/10, 4/10] 0.3 : ℚ) / ([4/10, 4/10] : List ℚ).length * 100) -
      ((countGt [4/10, 1/10] 0.6 : ℚ) / ([4/10, 1/10] : List ℚ).length * 100 +
        (countGt [4/10, 1/10] 0.3 : ℚ) / ([4/10, 1/10] : List ℚ).length * 100) :=
  c2_change_is_difference [4/10, 1/10] [4/10, 4/10] ⟨0, 50, 50, 9/5000⟩ ⟨0, 100, 100, 9/5000⟩
    (by norm_num [vegStatsOf, calculate_vegetation_stats, reduceNDVI, countGt])
    (by norm_num [vegStatsOf, calculate_vegetation_stats, reduceNDVI, countGt])

/-! ### C3: the NDVI formula -/

/-- C3: for every pixel whose B8 and B4 band values have nonzero sum,
the NDVI band attached by `add_indices` is (B8 - B4) / (B8 + B4). -/
theorem c3_ndvi_formula (p : S2Pixel) (h : p.B8 + p.B4 ≠ 0) :
    (add_indices p).NDVI = some ((p.B8 - p.B4) / (p.B8 + p.B4)) := by
  simp [add_indices, normalizedDifference, h]

/-- C3 witness: the NDVI of a pixel with B4 = 0.1 and B8 = 0.5. -/
theorem c3_ndvi_formula_witness :
    (add_indices ⟨1/10, 5/10, 4⟩).NDVI =
      some (((5 : ℚ)/10 - 1/10) / ((5 : ℚ)/10 + 1/10)) :=
  c3_ndvi_formula ⟨1/10, 5/10, 4⟩ (by norm_num)

/-! ### C9: safety of the percentage divisions -/

/-- C9 (counterexample): a reducer result that carries the NDVI key with
count 0 — as the count reducer returns over a region with no unmasked
pixels — makes `total_pixels` zero and the division raises; the
`.get('NDVI', 1)` default does not fire because the key is present.  The
pipeline reaches this state on an image whose only pixel has SCL = 3
(cloud shadow), where every pixel is cloud-masked. -/
theorem c9_zero_count_counterexample :
    calculate_vegetation_stats ⟨some 0, some 0, some 0⟩ = none ∧
    vegStatsOf [] = none ∧
    analysisStats [⟨1, 2, 3⟩] = none := by
  refine ⟨by norm_num [calculate_vegetation_stats], vegStatsOf_nil, ?_⟩
  norm_num [analysisStats, vegStatsOf, calculate_vegetation_stats, reduceNDVI,
    ndviBandValues, processedImage, mask_s2_clouds]

/-- C9 (amended): the divisions are safe whenever the count result is not
a present zero: if the NDVI key is absent the divisor defaults to 1, and
any nonzero count divides safely; only a reducer result carrying a zero
count makes the function raise. -/
theorem c9_safe_unless_zero_count (r : ReduceResults) (h : r.totalR ≠ some 0) :
    (calculate_vegetation_stats r).isSome = true := by
  rcases r with ⟨tR, dR, mR⟩
  cases tR with
  | none => simp [calculate_vegetation_stats]
  | some q =>
      have hq : q ≠ 0 := by
        intro hq0
        exact h (by simp [hq0])
      simp [calculate_vegetation_stats, hq]

/-- C9 witness: the amended statement at a reducer result with the NDVI
key absent from the count dictionary. -/
theorem c9_safe_unless_zero_count_witness :
    (calculate_vegetation_stats ⟨none, some 0, some 0⟩).isSome = true :=
  c9_safe_unless_zero_count ⟨none, some 0, some 0⟩ (by simp)

/-! ### C8: double counting of dense pixels -/

lemma countGt_anti (l : List ℚ) {a b : ℚ} (hab : a ≤ b) :
    countGt l b ≤ countGt l a := by
  induction l with
  | nil => simp [countGt]
  | cons x xs ih =>
      simp only [countGt, List.filter_cons] at ih ⊢
      by_cases hbx : b < x
      · have hax : a < x := lt_of_le_of_lt hab hbx
        simp [hbx, hax]
        omega
      · by_cases hax : a < x
        · simp [hbx, hax]
          omega
        · simp [hbx, hax]
          exact ih

lemma countGt_le_length (l : List ℚ) (t : ℚ) : countGt l t ≤ l.length :=
  List.length_filter_le _ l

/-- C8: pixels with NDVI above 0.6 are counted at both thresholds,
`total_vegetation` is the sum of the two percentages, so with at least
one pixel above 0.6 it strictly exceeds the percentage of pixels above
0.3, and on an image whose only pixel has NDVI 0.7 it reaches 200%. -/
theorem c8_double_counting (l : List ℚ) (h : 0 < countGt l 0.6) :
    countGt l 0.6 ≤ countGt l 0.3 ∧
    (vegStatsOf l).map VegStats.total_vegetation =
      some ((countGt l 0.6 : ℚ) / l.length * 100 +
        (countGt l 0.3 : ℚ) / l.length * 100) ∧
    100 * (countGt l 0.3 : ℚ) / l.length <
      (countGt l 0.6 : ℚ) / l.length * 100 +
        (countGt l 0.3 : ℚ) / l.length * 100 ∧
    (vegStatsOf [7/10]).map VegStats.total_vegetation = some 200 ∧
    (100 : ℚ) < 200 := by
  have hlen : 0 < l.length := lt_of_lt_of_le h (countGt_le_length l 0.6)
  have hl : l ≠ [] := List.length_pos.mp hlen
  have hn : (0 : ℚ) < l.length := by exact_mod_cast hlen
  have hd : (0 : ℚ) < countGt l 0.6 := by exact_mod_cast h
  refine ⟨countGt_anti l (by norm_num), ?_, ?_, ?_, by norm_num⟩
  · rw [vegStatsOf_eq_of_ne_nil l hl]
    rfl
  · have hrw : 100 * (countGt l 0.3 : ℚ) / l.length =
        (countGt l 0.3 : ℚ) / l.length * 100 := by ring
    rw [hrw]
    exact lt_add_of_pos_left _ (mul_pos (div_pos hd hn) (by norm_num))
  · norm_num [vegStatsOf, calculate_vegetation_stats, reduceNDVI, countGt]

/-- C8 witness: the statement at the single-pixel image with NDVI 0.7. -/
theorem c8_double_counting_witness :
    countGt [7/10] 0.6 ≤ countGt [7/10] 0.3 ∧
    (vegStatsOf [7/10]).map VegStats.total_vegetation =
      some ((countGt [7/10] 0.6 : ℚ) / ([7/10] : List ℚ).length * 100 +
        (countGt [7/10] 0.3 : ℚ) / ([7/10] : List ℚ).length * 100) ∧
    100 * (countGt [7/10] 0.3 : ℚ) / ([7/10] : List ℚ).length <
      (countGt [7/10] 0.6 : ℚ) / ([7/10] : List ℚ).length * 100 +
        (countGt [7/10] 0.3 : ℚ) / ([7/10] : List ℚ).length * 100 ∧
    (vegStatsOf [7/10]).map VegStats.total_vegetation = some 200 ∧
    (100 : ℚ) < 200 :=
  c8_double_counting [7/10] (by norm_num [countGt])

/-! ### C4: classification is by NDVI thresholds, not k-means labels -/

/-- C4 (counterexample): on an image whose only unmasked pixel has NDVI
0.7, the code reports 200% total vegetation, while under the spec's
convention — each pixel labelled 0, 1 or 2 by k-means and the pixels
labelled 1 counted as vegetation — the vegetation percentage of a
one-pixel image is 0 or 100 under every one of the three possible
labellings, never 200. -/
theorem c4_kmeans_counterexample :
    (vegStatsOf [7/10]).map VegStats.total_vegetation = some 200 ∧
    specVegPercent [0] = 0 ∧
    specVegPercent [1] = 100 ∧
    specVegPercent [2] = 0 ∧
    (200 : ℚ) ≠ 0 ∧
    (200 : ℚ) ≠ 100 := by
  refine ⟨?_, ?_, ?_, ?_, by norm_num, by norm_num⟩ <;>
    (norm_num [vegStatsOf, calculate_vegetation_stats, reduceNDVI, countGt, specVegPercent];
     try decide)

/-- C4 (amended): vegetation is distinguished from non-vegetation by
fixed NDVI thresholds, not by clustering: the dense percentage is the
share of unmasked pixels with NDVI above 0.6, the moderate percentage
the share above 0.3 (dense pixels counted again), and the total is their
sum; no cluster label is ever computed. -/
theorem c4_threshold_classification (l : List ℚ) (h : l ≠ []) :
    (vegStatsOf l).map VegStats.dense_vegetation =
      some ((countGt l 0.6 : ℚ) / l.length * 100) ∧
    (vegStatsOf l).map VegStats.moderate_vegetation =
      some ((countGt l 0.3 : ℚ) / l.length * 100) ∧
    (vegStatsOf l).map VegStats.total_vegetation =
      some ((countGt l 0.6 : ℚ) / l.length * 100 +
        (countGt l 0.3 : ℚ) / l.length * 100) := by
  rw [vegStatsOf_eq_of_ne_nil l h]
  exact ⟨rfl, rfl, rfl⟩

/-- C4 witness: the amended statement at the single-pixel image with
NDVI 0.7. -/
theorem c4_threshold_classification_witness :
    (vegStatsOf [7/10]).map VegStats.dense_vegetation =
      some ((countGt [7/10] 0.6 : ℚ) / ([7/10] : List ℚ).length * 100) ∧
    (vegStatsOf [7/10]).map VegStats.moderate_vegetation =
      some ((countGt [7/10] 0.3 : ℚ) / ([7/10] : List ℚ).length * 100) ∧
    (vegStatsOf [7/10]).map VegStats.total_vegetation =
      some ((countGt [7/10] 0.6 : ℚ) / ([7/10] : List ℚ).length * 100 +
        (countGt [7/10] 0.3 : ℚ) / ([7/10] : List ℚ).length * 100) :=
  c4_threshold_classification [7/10] (by simp)

/-! ### C5: single least-cloudy image versus median composite -/

lemma mem_insertByCloudy {a x : S2SceneImage} {l : List S2SceneImage} :
    a ∈ insertByCloudy x l ↔ a = x ∨ a ∈ l := by
  induction l with
  | nil => simp [insertByCloudy]
  | cons y ys ih =>
      simp only [insertByCloudy]
      by_cases hxy : x.cloudy ≤ y.cloudy
      · simp [hxy]
      · simp only [if_neg hxy, List.mem_cons, ih]
        tauto

lemma mem_sortByCloudy {a : S2SceneImage} {l : List S2SceneImage} :
    a ∈ sortByCloudy l ↔ a ∈ l := by
  induction l with
  | nil => simp [sortByCloudy]
  | cons y ys ih => simp [sortByCloudy, mem_insertByCloudy, ih]

/-- The head of the list, when there is one, has minimal cloudy-pixel
percentage among all elements. -/
def minHeadedCloudy : List S2SceneImage → Prop
  | [] => True
  | x :: xs => ∀ y ∈ xs, x.cloudy ≤ y.cloudy

lemma minHeaded_insertByCloudy (x : S2SceneImage) (l : List S2SceneImage)
    (h : minHeadedCloudy l) : minHeadedCloudy (insertByCloudy x l) := by
  cases l with
  | nil =>
      intro y hy
      simp [insertByCloudy] at hy
  | cons y ys =>
      simp only [insertByCloudy]
      by_cases hxy : x.cloudy ≤ y.cloudy
      · rw [if_pos hxy]
        intro z hz
        rcases List.mem_cons.mp hz with rfl | hz'
        · exact hxy
        · exact le_trans hxy (h z hz')
      · rw [if_neg hxy]
        intro z hz
        rcases mem_insertByCloudy.mp hz with rfl | hz'
        · exact le_of_lt (lt_of_not_le hxy)
        · exact h z hz'

lemma minHeaded_sortByCloudy (l : List S2SceneImage) :
    minHeadedCloudy (sortByCloudy l) := by
  induction l with
  | nil => trivial
  | cons y ys ih => exact minHeaded_insertByCloudy y (sortByCloudy ys) ih

/-- C5 (counterexample): over a collection of three images of a
one-pixel region, all passing the 30% cloud filter, with values 10, 30,
20 and cloudy percentages 5, 10, 20, the code selects the single
least-cloudy image, whose pixel value is 10, while the per-pixel median
over all images of the date range is 20: the analysed image is not a
median composite. -/
theorem c5_composite_counterexample :
    (recent_image [⟨10, 5⟩, ⟨30, 10⟩, ⟨20, 20⟩]).map S2SceneImage.value = some 10 ∧
    medianComposite [⟨10, 5⟩, ⟨30, 10⟩, ⟨20, 20⟩] = some 20 ∧
    (10 : ℚ) ≠ 20 := by
  refine ⟨?_, ?_, by norm_num⟩
  · norm_num [recent_image, sortByCloudy, insertByCloudy]
  · norm_num [medianComposite, medianOf, List.mergeSort]

/-- C5 (amended): each of the two analysed images is the single image of
the date-ranged collection with the lowest cloudy-pixel percentage among
those below 30%, not a per-pixel median composite. -/
theorem c5_least_cloudy_selection (c : List S2SceneImage) (img : S2SceneImage)
    (h : recent_image c = some img) :
    img ∈ c ∧ img.cloudy < 30 ∧
      ∀ i ∈ c, i.cloudy < 30 → img.cloudy ≤ i.cloudy := by
  unfold recent_image at h
  cases hs : sortByCloudy (c.filter (fun i => decide (i.cloudy < 30))) with
  | nil => rw [hs] at h; simp at h
  | cons x t =>
      rw [hs] at h
      simp only [List.head?_cons, Option.some.injEq] at h
      subst h
      have hmem : x ∈ sortByCloudy (c.filter (fun i => decide (i.cloudy < 30))) := by
        rw [hs]
        exact List.mem_cons_self x t
      have hfl : x ∈ c.filter (fun i => decide (i.cloudy < 30)) :=
        mem_sortByCloudy.mp hmem
      have h1 := List.mem_filter.mp hfl
      refine ⟨h1.1, by simpa using h1.2, ?_⟩
      intro i hi hic
      have hif : i ∈ c.filter (fun j => decide (j.cloudy < 30)) :=
        List.mem_filter.mpr ⟨hi, by simpa using hic⟩
      have his : i ∈ sortByCloudy (c.filter (fun j => decide (j.cloudy < 30))) :=
        mem_sortByCloudy.mpr hif
      rw [hs] at his
      rcases List.mem_cons.mp his with rfl | hit
      · exact le_refl _
      · have hmin := minHeaded_sortByCloudy (c.filter (fun j => decide (j.cloudy < 30)))
        rw [hs] at hmin
        exact hmin i hit

/-- C5 witness: the amended statement at the collection of the
counterexample. -/
theorem c5_least_cloudy_selection_witness :
    (⟨10, 5⟩ : S2SceneImage) ∈ [(⟨10, 5⟩ : S2SceneImage), ⟨30, 10⟩, ⟨20, 20⟩] ∧
    (⟨10, 5⟩ : S2SceneImage).cloudy < 30 ∧
    ∀ i ∈ [(⟨10, 5⟩ : S2SceneImage), ⟨30, 10⟩, ⟨20, 20⟩],
      i.cloudy < 30 → (⟨10, 5⟩ : S2SceneImage).cloudy ≤ i.cloudy :=
  c5_least_cloudy_selection [⟨10, 5⟩, ⟨30, 10⟩, ⟨20, 20⟩] ⟨10, 5⟩
    (by norm_num [recent_image, sortByCloudy, insertByCloudy])

/-! ### C6: a drawn polygon round-trips through session state -/

/-- C6: capturing a drawn geometry into session state and reading the
coordinates back for the Earth Engine polygon yields exactly the drawn
coordinate list, with no reordering and no loss of precision; this also
covers the branch that skips re-saving a drawing whose coordinate string
matches the saved one, since then the saved coordinates already equal
the drawn ones. -/
theorem c6_geometry_roundtrip (s : SessionState) (g : DrawnGeometry) :
    roiCoords (step s (.capture g)) = some g.coordinates := by
  obtain ⟨sg, ar⟩ := s
  cases sg with
  | none => simp [step, coordsChanged, roiCoords]
  | some g0 =>
      by_cases hc : g0.coordinates = g.coordinates
      · simp [step, coordsChanged, roiCoords, hc]
      · simp [step, coordsChanged, roiCoords, hc]

/-! ### C7: order of the pipeline stages -/

lemma ndviBandValues_processedImage (img : List S2Pixel) :
    ndviBandValues (processedImage img) =
      img.filterMap (fun p =>
        if p.SCL ≠ 3 ∧ p.SCL ≠ 8 ∧ p.SCL ≠ 9 then
          normalizedDifference (p.B8 / 10000) (p.B4 / 10000)
        else none) := by
  induction img with
  | nil => rfl
  | cons p ps ih =>
      simp only [processedImage, ndviBandValues, List.filterMap_cons] at ih ⊢
      by_cases hp : p.SCL ≠ 3 ∧ p.SCL ≠ 8 ∧ p.SCL ≠ 9
      · simp only [mask_s2_clouds, if_pos hp, List.map_cons, List.filterMap_cons,
          add_indices]
        cases hnd : normalizedDifference (p.B8 / 10000) (p.B4 / 10000) <;>
          simp [hnd, ih]
      · simp only [mask_s2_clouds, if_neg hp]
        simpa using ih

/-- C7: the pipeline applies its stages in the stated order — the cloud
mask tests the raw SCL values first, the NDVI is then computed from the
masked and scaled (divided by 10000) band values, and the statistics are
aggregated last, from the NDVI band of the already-processed image:
pixel for pixel, the aggregated NDVI values are exactly the normalized
differences of the scaled bands of the cloud-free pixels. -/
theorem c7_pipeline_order (img : List S2Pixel) :
    ndviBandValues (processedImage img) =
      img.filterMap (fun p =>
        if p.SCL ≠ 3 ∧ p.SCL ≠ 8 ∧ p.SCL ≠ 9 then
          normalizedDifference (p.B8 / 10000) (p.B4 / 10000)
        else none) ∧
    analysisStats img =
      vegStatsOf (img.filterMap (fun p =>
        if p.SCL ≠ 3 ∧ p.SCL ≠ 8 ∧ p.SCL ≠ 9 then
          normalizedDifference (p.B8 / 10000) (p.B4 / 10000)
        else none)) := by
  refine ⟨ndviBandValues_processedImage img, ?_⟩
  unfold analysisStats
  rw [ndviBandValues_processedImage img]

/-! ### C10: geometry changes reset the analysis flag -/

lemma step_keeps_saved_of_run (s : SessionState) (e : UIEvent)
    (h2 : (step s e).analysis_run = true) :
    (step s e).saved_geometry = s.saved_geometry := by
  cases e with
  | capture g =>
      simp only [step] at h2 ⊢
      by_cases hc : coordsChanged s g
      · rw [if_pos hc] at h2
        simp at h2
      · rw [if_neg hc]
  | clear => simp [step] at h2
  | runClick =>
      simp only [step] at h2 ⊢
      by_cases hm : s.saved_geometry.isSome
      · rw [if_pos hm]
      · rw [if_neg hm]
  | other => rfl

lemma self_mem_traceStates (s : SessionState) (es : List UIEvent) :
    s ∈ traceStates s es := by
  cases es <;> simp [traceStates]

lemma trace_preserves_saved (es : List UIEvent) (s : SessionState)
    (hkeep : ∀ t ∈ traceStates s es, t.analysis_run = true) :
    (applyEvents s es).saved_geometry = s.saved_geometry := by
  induction es generalizing s with
  | nil => rfl
  | cons e es ih =>
      have hkeep' : ∀ t ∈ traceStates (step s e) es, t.analysis_run = true := by
        intro t ht
        exact hkeep t (by simp [traceStates, ht])
      have hse : (step s e).analysis_run = true :=
        hkeep' (step s e) (self_mem_traceStates _ _)
      have h1 : (applyEvents (step s e) es).saved_geometry = (step s e).saved_geometry :=
        ih (step s e) hkeep'
      have h2 := step_keeps_saved_of_run s e hse
      calc (applyEvents s (e :: es)).saved_geometry
          = (applyEvents (step s e) es).saved_geometry := rfl
        _ = (step s e).saved_geometry := h1
        _ = s.saved_geometry := h2

/-- C10: capturing a drawing that changes the saved geometry resets the
analysis flag, clearing the drawing resets it, and along any run of
events during which the analysis flag stays set the saved geometry never
changes — so whenever the analysis block (which requires the flag) runs,
the geometry is still the one that was saved when the Run button set the
flag. -/
theorem c10_analysis_geometry_stability (s : SessionState) (g : DrawnGeometry)
    (es : List UIEvent) :
    ((step s (.capture g)).saved_geometry ≠ s.saved_geometry →
      (step s (.capture g)).analysis_run = false) ∧
    (step s .clear).analysis_run = false ∧
    ((∀ t ∈ traceStates (step s .runClick) es, t.analysis_run = true) →
      (applyEvents (step s .runClick) es).saved_geometry =
        (step s .runClick).saved_geometry) := by
  refine ⟨?_, rfl, fun hkeep => trace_preserves_saved es (step s .runClick) hkeep⟩
  intro hch
  simp only [step] at hch ⊢
  by_cases hc : coordsChanged s g
  · rw [if_pos hc]
  · rw [if_neg hc] at hch
    exact absurd rfl hch

/-- C10 witness: a concrete run — geometry saved, Run clicked, one idle
rerun — keeps the geometry of the click; a differing capture and a clear
both reset the flag. -/
theorem c10_analysis_geometry_stability_witness :
    ((step ⟨some ⟨"Polygon", [[(0, 0), (1, 0), (1, 1), (0, 0)]]⟩, false⟩
        (.capture ⟨"Polygon", [[(2, 2), (3, 2), (3, 3), (2, 2)]]⟩)).analysis_run = false) ∧
    (step ⟨some ⟨"Polygon", [[(0, 0), (1, 0), (1, 1), (0, 0)]]⟩, false⟩
        .clear).analysis_run = false ∧
    (applyEvents (step ⟨some ⟨"Polygon", [[(0, 0), (1, 0), (1, 1), (0, 0)]]⟩, false⟩
        .runClick) [.other]).saved_geometry =
      (step ⟨some ⟨"Polygon", [[(0, 0), (1, 0), (1, 1), (0, 0)]]⟩, false⟩
        .runClick).saved_geometry := by
  obtain ⟨h1, h2, h3⟩ := c10_analysis_geometry_stability
    ⟨some ⟨"Polygon", [[(0, 0), (1, 0), (1, 1), (0, 0)]]⟩, false⟩
    ⟨"Polygon", [[(2, 2), (3, 2), (3, 3), (2, 2)]]⟩ [.other]
  refine ⟨h1 ?_, h2, h3 ?_⟩
  · simp [step, coordsChanged]
  · intro t ht
    simp [traceStates, step, applyEvents] at ht
    subst ht
    rfl
